import Mathlib

/-!
Shallow embedding of the Litex-CNC toolerator firmware:
`src/litexcnc_toolerator/firmware/stepgen.py` (StepgenModule, StepgenCounter,
create_routine) and `src/litexcnc_toolerator/firmware/toolerator.py`
(TooleratorModule, TooleratorStates).

Migen semantics used throughout:
* Every `sync` statement reads the signal values of the current clock tick
  and assigns next-tick values.  When several `sync` statements assign the
  same signal on one tick, the statement occurring later in the merged
  statement list wins (submodule fragments are merged before the parent
  module's own statements, so a parent assignment overrides a submodule's).
* A signal that is assigned by no executed statement keeps its value; a
  signal that is never driven keeps its reset value forever.
* All fixed-point registers are modelled as unbounded `Int`: the spec
  (section 4.1) states the registers are sized at configuration time so
  that overflow cannot occur, and every claim lives inside that envelope.
  An arithmetic right shift of a signed register is floor division by a
  power of two (Lean's `Int` division is Euclidean division, which agrees
  with floor division for positive divisors); the top bit of a signed
  register is its sign.
* `int(x / y)` and `int(x * (d / 360))` on the positive Python values used
  by the constructors are modelled as exact truncating (floor) division.
-/

/-- Arithmetic shift right (Migen `>>` on a signed value): floor division
by `2 ^ n`. -/
def sar (x : Int) (n : Nat) : Int := x / ((2 : Int) ^ n)

/-- Bit `n` of the two's-complement representation of `x` (Migen `x[n]`). -/
def bitOf (x : Int) (n : Nat) : Bool := decide (sar x n % 2 = 1)

/-- A 1-bit flag used inside an arithmetic expression (Migen widens the
flag to an integer 0/1). -/
def b2i (b : Bool) : Int := if b then 1 else 0

/-- Static configuration of `StepgenModule` (`stepgen.py`).  The pick-offs
are those stored by `__init__` (lines 174-186); `max_acceleration`,
`max_speed`, `steplen`, `dir_hold_time` and `dir_setup_time` are driven
combinationally from the configuration by `TooleratorModule.__init__`
(toolerator.py lines 90-96), hence constants here. -/
structure StepgenCfg where
  pick_off_pos : Nat
  pick_off_vel : Nat
  pick_off_acc : Nat
  max_acceleration : Int
  max_speed : Int
  steplen : Nat
  dir_hold_time : Nat
  dir_setup_time : Nat
  soft_stop : Bool
deriving DecidableEq

/-- `pick_off_acc - pick_off_vel`, the shift between the acceleration and
velocity scales, used all over `stepgen.py`. -/
def StepgenCfg.shift_av (c : StepgenCfg) : Nat := c.pick_off_acc - c.pick_off_vel

/-- The registered state of `StepgenModule` plus the signals created by
`create_routine`.  Counter values are the `StepgenCounter.counter`
registers.  `dir` resets to 1 (`stepgen.py` line 33); everything else
resets to 0. -/
structure Stepgen where
  position : Int
  position_target : Int
  speed : Int
  speed_target : Int
  acc_distance : Int
  accelerating : Bool
  position_mode : Bool
  wait : Bool
  step_prev : Bool
  step : Bool
  dir : Bool
  hold_dds : Bool
  steplen_counter : Nat
  dir_hold_counter : Nat
  dir_setup_counter : Nat
deriving DecidableEq

/-- Reset state of the stepgen signals. -/
def Stepgen.init : Stepgen :=
  { position := 0, position_target := 0, speed := 0, speed_target := 0
  , acc_distance := 0, accelerating := false, position_mode := false
  , wait := false, step_prev := false, step := false, dir := true
  , hold_dds := false, steplen_counter := 0, dir_hold_counter := 0
  , dir_setup_counter := 0 }

/-- Per-tick inputs of the stepgen: `enable` and `reset` are input signals;
the three `Option` fields are the writes the owning sequencer (or a test
harness) performs on `speed_target` / `position_target` / `position_mode`
this tick.  Being parent-module statements they override the stepgen's own
assignments to the same signal. -/
structure StepgenIn where
  enable : Bool
  reset : Bool
  st_write : Option Int
  pt_write : Option Int
  pm_write : Option Bool
deriving DecidableEq

/-- `dtg` combinational signal: `position_target - position`
(`stepgen.py` line 209). -/
def dtg (s : Stepgen) : Int := s.position_target - s.position

/-- The combinational `stopped` flag (`stepgen.py` lines 294-298). -/
def stopped (cfg : StepgenCfg) (s : Stepgen) : Bool :=
  decide (dtg s < sar (5 * cfg.max_acceleration) cfg.shift_av) &&
  decide (dtg s > sar (-5 * cfg.max_acceleration) cfg.shift_av) &&
  decide (s.speed = 0)

/-- The velocity-ramp `sync` block (`stepgen.py` lines 217-292), minus its
`~reset & ~wait` gate and the `~enable` clamp of `speed_target` (both are
handled in `stepgenTick`).  Returns the next values of
(`speed`, `acc_distance`, `accelerating`). -/
def velocityRamp (cfg : StepgenCfg) (s : Stepgen) : Int × Int × Bool :=
  if cfg.max_acceleration = 0 then
    (s.speed_target, s.acc_distance, s.accelerating)
  else if s.speed_target ≥ s.speed + cfg.max_acceleration then
    ( s.speed + cfg.max_acceleration
    , (if s.speed ≥ 0 then
        s.acc_distance + sar (s.speed + sar cfg.max_acceleration 1) cfg.shift_av
      else
        s.acc_distance - sar (s.speed + sar cfg.max_acceleration 1) cfg.shift_av)
    , true )
  else if s.speed_target ≤ s.speed - cfg.max_acceleration then
    ( s.speed - cfg.max_acceleration
    , (if s.speed > 0 then
        s.acc_distance - sar (s.speed - sar cfg.max_acceleration 1) cfg.shift_av
      else
        s.acc_distance + sar (s.speed - sar cfg.max_acceleration 1) cfg.shift_av)
    , true )
  else
    -- small gap: `If((position_mode != 1) | (speed_target == 0), ...)`;
    -- the trailing `If(speed_target == 0, acc_distance.eq(0))` is the last
    -- assignment to acc_distance in the block and therefore wins.
    ( (if s.position_mode = false ∨ s.speed_target = 0 then s.speed_target else s.speed)
    , (if s.speed_target = 0 then 0
       else if (s.position_mode = false ∨ s.speed_target = 0) ∧ s.speed ≠ s.speed_target then
         (if s.speed ≥ 0 then
           s.acc_distance + sar (s.speed + s.speed_target) (cfg.shift_av + 1)
         else
           s.acc_distance - sar (s.speed + s.speed_target) (cfg.shift_av + 1))
       else s.acc_distance)
    , false )

/-- The position-algorithm `sync` block (`stepgen.py` lines 301-327): the
write it performs on `speed_target` this tick, if any. -/
def positionAlgo (cfg : StepgenCfg) (s : Stepgen) : Option Int :=
  if s.acc_distance = 0 ∧ s.position_mode = true then
    if dtg s > sar (5 * cfg.max_acceleration) cfg.shift_av then
      some cfg.max_speed
    else if dtg s < sar (-5 * cfg.max_acceleration) cfg.shift_av then
      some (-1 * cfg.max_speed)
    else none
  else if s.acc_distance > 0 ∧ s.position_mode = true then
    if dtg s - sar ((5 + 4 * b2i s.accelerating) * s.speed
          + (4 + 4) * b2i s.accelerating * cfg.max_acceleration) (cfg.shift_av + 1)
        > s.acc_distance then
      some cfg.max_speed
    else some 0
  else if s.acc_distance < 0 ∧ s.position_mode = true then
    if dtg s - sar ((5 + 4 * b2i s.accelerating) * s.speed
          - (4 + 4) * b2i s.accelerating * cfg.max_acceleration) (cfg.shift_av + 1)
        < s.acc_distance then
      some (-1 * cfg.max_speed)
    else some 0
  else none

/-- Just the `speed` component of the velocity ramp, as a function of
position mode, (constant) speed target and current speed; used to state
the convergence property of the ramp. -/
def rampSpeed (cfg : StepgenCfg) (pm : Bool) (st v : Int) : Int :=
  if cfg.max_acceleration = 0 then st
  else if st ≥ v + cfg.max_acceleration then v + cfg.max_acceleration
  else if st ≤ v - cfg.max_acceleration then v - cfg.max_acceleration
  else if pm = false ∨ st = 0 then st
  else v

/-- `n` ticks of the velocity ramp with a held speed target `st`. -/
def iterSpeed (cfg : StepgenCfg) (pm : Bool) (st : Int) : Nat → Int → Int
  | 0, v => v
  | n + 1, v => iterSpeed cfg pm st n (rampSpeed cfg pm st v)

/-- One clock tick of `StepgenModule` (with `create_routine` attached),
all reads from the pre-tick state `s`:
* velocity ramp (lines 217-292), gated by `~reset & ~wait`;
* `speed_target` priority chain: external write (parent module, merged
  last) over the reset block (line 336) over the position algorithm
  (lines 301-327) over the `~enable` clamp (lines 222-225);
* reset block (lines 332-340): zeroes `speed_target`, `speed`, `position`
  (`max_acceleration` is combinationally driven in the composed design);
* position integration (lines 343-356), with the `soft_stop` variant;
* step/dir routine (`create_routine`, lines 59-108): the step-edge block,
  the `hold_dds` clear, the step output and the dir block, on top of the
  free-running `StepgenCounter` down-counts.  The sign bit
  `speed[32 + (pick_off_acc - pick_off_vel) - 1]` is `speed < 0`. -/
def stepgenTick (cfg : StepgenCfg) (inp : StepgenIn) (s : Stepgen) : Stepgen :=
  let rampRuns := inp.reset = false ∧ s.wait = false
  let r := velocityRamp cfg s
  let st1 : Int :=
    match positionAlgo cfg s with
    | some v => v
    | none => if inp.reset = false ∧ s.wait = false ∧ inp.enable = false then 0
              else s.speed_target
  let speed_target' : Int :=
    match inp.st_write with
    | some v => v
    | none => if inp.reset then 0 else st1
  let speed' : Int := if inp.reset then 0 else if s.wait then s.speed else r.1
  let acc' : Int := if rampRuns then r.2.1 else s.acc_distance
  let accel' : Bool := if rampRuns then r.2.2 else s.accelerating
  let position' : Int :=
    if inp.reset then 0
    else if (cfg.soft_stop || inp.enable) && !s.wait then
      s.position + sar s.speed cfg.shift_av
    else s.position
  let phase := bitOf s.position cfg.pick_off_pos
  let edge_pending := phase ≠ s.step_prev
  let edge_processed := edge_pending ∧ s.hold_dds = false
  let desired := decide (s.speed < 0)
  let dir_change := s.dir ≠ desired
  { position := position'
  , position_target := (inp.pt_write).getD s.position_target
  , speed := speed'
  , speed_target := speed_target'
  , acc_distance := acc'
  , accelerating := accel'
  , position_mode := (inp.pm_write).getD s.position_mode
  , wait := if edge_pending then s.hold_dds else s.wait
  , step_prev := if edge_processed then phase else s.step_prev
  , step := decide (0 < s.steplen_counter)
  , dir := if dir_change ∧ s.dir_hold_counter = 0 then desired else s.dir
  , hold_dds := if dir_change then true
                else if s.dir_setup_counter = 0 then false
                else s.hold_dds
  , steplen_counter := if edge_processed then cfg.steplen
                       else s.steplen_counter - 1
  , dir_hold_counter := if edge_processed then cfg.steplen + cfg.dir_hold_time
                        else s.dir_hold_counter - 1
  , dir_setup_counter := if dir_change ∧ s.dir_setup_counter = 0 then cfg.dir_setup_time
                         else if edge_processed then
                           cfg.steplen + cfg.dir_hold_time + cfg.dir_setup_time
                         else s.dir_setup_counter - 1 }

/-- A run of the bare stepgen from state `s` under input stream `ins`. -/
def runSgFrom (cfg : StepgenCfg) (ins : Nat → StepgenIn) (s : Stepgen) : Nat → Stepgen
  | 0 => s
  | n + 1 => stepgenTick cfg (ins n) (runSgFrom cfg ins s n)

/-- The Python value passed as `pick_off` to `StepgenModule.__init__`:
a single integer, a (non-string) sequence of integers, or anything else
(including a string, which the constructor explicitly excludes from the
iterable case). -/
inductive PickOff where
  | int (n : Nat) : PickOff
  | list (l : List Nat) : PickOff
  | other : PickOff
deriving DecidableEq

/-- The pick-off validation of `StepgenModule.__init__`
(`stepgen.py` lines 174-186): `none` models the constructor raising
`ValueError` (the core is never built), `some` the stored triple
(`pick_off_pos`, `pick_off_vel`, `pick_off_acc`). -/
def parsePickOff : PickOff → Option (Nat × Nat × Nat)
  | .int n => some (n, n, n)
  | .list l =>
    if l.length < 3 then none
    else
      let pos := l.getD 0 0
      let vel := max pos (l.getD 1 0)
      let acc := max vel (l.getD 2 0)
      some (pos, vel, acc)
  | .other => none

/-- The states of the turret sequencer (`TooleratorStates`). -/
inductive TState where
  | start
  | homeSearching
  | homeBackOff
  | homeLatching
  | homeMoveToZero
  | movingForward
  | movingBackward
  | ready
  | error
deriving DecidableEq

/-- Static configuration of `TooleratorModule` (`toolerator.py`):
`tool_count`, `ppr`, `over_travel` (whole degrees), the presence of a
homing configuration, the resolved back-off angle
(`home_back_off or over_travel`, whole degrees) and the raw latch
velocity `int((home_latch_vel << pick_off_vel) / clock_frequency)`. -/
structure TooleratorCfg where
  sg : StepgenCfg
  tool_count : Nat
  ppr : Nat
  over_travel : Nat
  homing : Bool
  back_off : Nat
  latch_vel_raw : Int
deriving DecidableEq

/-- `int((config.ppr << pick_off_pos) / config.tool_count)`
(`toolerator.py` lines 163 and 170). -/
def TooleratorCfg.steps_per_tool (c : TooleratorCfg) : Int :=
  ((c.ppr * 2 ^ c.sg.pick_off_pos) / c.tool_count : Nat)

/-- `int((config.ppr << pick_off_pos) * (config.over_travel / 360))`
(`toolerator.py` lines 144, 164, 171). -/
def TooleratorCfg.over_travel_raw (c : TooleratorCfg) : Int :=
  ((c.ppr * 2 ^ c.sg.pick_off_pos * c.over_travel) / 360 : Nat)

/-- `int((config.ppr << pick_off_pos) * ((home_back_off or over_travel) / 360))`
(`toolerator.py` lines 203 and 225). -/
def TooleratorCfg.back_off_raw (c : TooleratorCfg) : Int :=
  ((c.ppr * 2 ^ c.sg.pick_off_pos * c.back_off) / 360 : Nat)

/-- The composed system: the sequencer registers of `TooleratorModule`
plus its `StepgenModule`.

`homed` (line 112 / 119) resets to 1 exactly when no homing configuration
is present; no `sync` or `comb` statement ever assigns it, so it keeps its
reset value forever.

`home_triggered` (line 104) is never driven either: lines 115/117 build
`self.home_triggered.eq(...)` but discard the statement instead of adding
it to `self.comb`, so the signal keeps its reset value 0 regardless of the
home pad. -/
structure Toolerator where
  gen : Stepgen
  state : TState
  current_tool : Int
  moving_to_tool : Int
  home_position : Int
  homed : Bool
  home_triggered : Bool
deriving DecidableEq

/-- Per-tick inputs of the composed system: `enable`, the commanded tool
number and the home request. -/
structure TooleratorIn where
  enable : Bool
  commanded_tool : Int
  home : Bool
deriving DecidableEq

/-- The writes the sequencer FSM performs on one tick. -/
structure SeqWrites where
  state : TState
  current_tool : Int
  moving_to_tool : Int
  home_position : Int
  pt : Option Int
  st : Option Int
  pm : Option Bool

/-- The sequencer FSM (`toolerator.py` lines 122-247), all reads from the
pre-tick state.  The main chain (lines 123-178) and the homing chain
(lines 179-247, built only when a homing configuration is present) match
on disjoint states, so a single match renders both.

Python-precedence notes (the source is rendered as it parses, not as its
comments read):
* line 131: `self.home == 1 | ((current_tool != commanded_tool) & ~homed)`
  parses as `home == (1 | ...)`; `1 | x` on a 1-bit value is constantly 1,
  so the condition is just `home`;
* line 199: `position_mode == 0 & stopped` parses as
  `position_mode == (0 & stopped)`, i.e. `position_mode == 0`;
* line 208: `position_mode == 1 & stopped` parses as
  `position_mode == (1 & stopped)`, i.e. `position_mode == stopped`;
* lines 233/243 (HOME_MOVE_TO_ZERO) use `position_mode.eq(0)` — an
  assignment object — inside the If condition, which is not a well-formed
  Migen expression; the state is unreachable (nothing transitions into
  it, spec section 9), so it is rendered with no writes. -/
def seqStep (cfg : TooleratorCfg) (inp : TooleratorIn) (s : Toolerator) : SeqWrites :=
  let keep : SeqWrites :=
    { state := s.state, current_tool := s.current_tool
    , moving_to_tool := s.moving_to_tool, home_position := s.home_position
    , pt := none, st := none, pm := none }
  match s.state with
  | .start =>
    -- two stacked Ifs (lines 125-137); the second overrides on conflicts
    let w1 := if s.homed = true then { keep with pm := some true, state := .ready } else keep
    if inp.home = true then
      { w1 with
        pm := some false,
        home_position := s.gen.position,
        st := some cfg.sg.max_speed,
        state := .homeSearching }
    else w1
  | .movingForward =>
    if stopped cfg.sg s.gen = true then
      { keep with
        pt := some (s.gen.position_target - cfg.over_travel_raw),
        state := .movingBackward }
    else keep
  | .movingBackward =>
    if stopped cfg.sg s.gen = true then
      { keep with current_tool := s.moving_to_tool, state := .ready }
    else keep
  | .ready =>
    if s.current_tool ≠ inp.commanded_tool ∧ s.homed = true then
      if s.current_tool < inp.commanded_tool then
        { keep with
          pt := some (s.gen.position_target
            + cfg.steps_per_tool * (inp.commanded_tool - s.current_tool)
            + cfg.over_travel_raw),
          moving_to_tool := inp.commanded_tool,
          state := .movingForward }
      else
        { keep with
          pt := some (s.gen.position_target
            + cfg.steps_per_tool * ((cfg.tool_count : Int) + inp.commanded_tool - s.current_tool)
            + cfg.over_travel_raw),
          moving_to_tool := inp.commanded_tool,
          state := .movingForward }
    else keep
  | .homeSearching =>
    if cfg.homing then
      let w1 := if s.home_triggered = true then
          { keep with home_position := s.gen.position, st := some 0, state := .homeBackOff }
        else keep
      if s.home_position - s.gen.position > (cfg.ppr : Int) + 1 then
        { w1 with st := some 0, state := .error }
      else w1
    else keep
  | .homeBackOff =>
    if cfg.homing then
      let w1 := if s.gen.position_mode = false then
          { keep with pm := some true, pt := some (s.home_position - cfg.back_off_raw) }
        else keep
      if s.gen.position_mode = stopped cfg.sg s.gen then
        { w1 with
          home_position := s.gen.position,
          st := some cfg.latch_vel_raw, state := .homeLatching }
      else w1
    else keep
  | .homeLatching =>
    if cfg.homing then
      let w1 := if s.home_triggered = true then
          { keep with home_position := s.gen.position, st := some 0, state := .homeBackOff }
        else keep
      if s.home_position - s.gen.position > cfg.back_off_raw then
        { w1 with st := some 0, state := .error }
      else w1
    else keep
  | .homeMoveToZero => keep
  | .error => keep

/-- One clock tick of the composed `TooleratorModule`: the sequencer's
writes (computed from the pre-tick state) land together with the stepgen's
own tick and, being parent-module statements, override the stepgen's
assignments to the same signals.  The stepgen's `reset` input is never
driven in the composed design and stays 0. -/
def tooleratorTick (cfg : TooleratorCfg) (inp : TooleratorIn) (s : Toolerator) : Toolerator :=
  let w := seqStep cfg inp s
  let g := stepgenTick cfg.sg
    { enable := inp.enable, reset := false
    , st_write := w.st, pt_write := w.pt, pm_write := w.pm } s.gen
  { gen := g, state := w.state, current_tool := w.current_tool
  , moving_to_tool := w.moving_to_tool, home_position := w.home_position
  , homed := s.homed, home_triggered := s.home_triggered }

/-- Reset state of the composed system: FSM in START (line 122), tool
registers 0, `homed` set when no homing configuration is present,
`home_triggered` at its (never driven) reset value 0. -/
def Toolerator.init (cfg : TooleratorCfg) : Toolerator :=
  { gen := Stepgen.init, state := .start, current_tool := 0
  , moving_to_tool := 0, home_position := 0
  , homed := !cfg.homing, home_triggered := false }

/-- A run of the composed system from reset under input stream `ins`. -/
def runToolerator (cfg : TooleratorCfg) (ins : Nat → TooleratorIn) : Nat → Toolerator
  | 0 => Toolerator.init cfg
  | n + 1 => tooleratorTick cfg (ins n) (runToolerator cfg ins n)

/-! Concrete configurations and states used by the per-claim theorems. -/

/-- Concrete configuration for claim C1's witness: the spec's worked
example (`tool_count = 6`, `ppr = 1800`), at pick-off 0 so that one raw
unit is one step. -/
def c1cfg : TooleratorCfg :=
  { sg := { pick_off_pos := 0, pick_off_vel := 0, pick_off_acc := 0
          , max_acceleration := 2, max_speed := 9, steplen := 0
          , dir_hold_time := 0, dir_setup_time := 0, soft_stop := true }
  , tool_count := 6, ppr := 1800, over_travel := 0
  , homing := false, back_off := 0, latch_vel_raw := 0 }

/-- READY state at tool 5 for claim C1's witness. -/
def c1s : Toolerator :=
  { gen := Stepgen.init, state := .ready, current_tool := 5, moving_to_tool := 5
  , home_position := 0, homed := true, home_triggered := false }

/-- Homing-configured system for claims C2 and C3. -/
def c2cfg : TooleratorCfg :=
  { sg := { pick_off_pos := 0, pick_off_vel := 0, pick_off_acc := 0
          , max_acceleration := 2, max_speed := 9, steplen := 0
          , dir_hold_time := 0, dir_setup_time := 0, soft_stop := true }
  , tool_count := 6, ppr := 1800, over_travel := 20
  , homing := true, back_off := 20, latch_vel_raw := 1 }

/-- Input stream for claim C2's witness: home requested, tool 2 commanded. -/
def c2ins : Nat → TooleratorIn := fun _ =>
  { enable := true, commanded_tool := 2, home := true }

/-- HOME_SEARCHING state for claim C3's witness, with the turret already
`(ppr + 1) + 7` raw position units past the searching start point
`home_position` — more than a full revolution of forward travel. -/
def c3s : Toolerator :=
  { gen := { Stepgen.init with position := 1808, speed := 9 }
  , state := .homeSearching, current_tool := 0, moving_to_tool := 0
  , home_position := 0, homed := false, home_triggered := false }

/-- START state for claim C4's witness: not homed, no home request, and a
commanded tool differing from the current tool. -/
def c4s : Toolerator :=
  { gen := Stepgen.init, state := .start, current_tool := 1, moving_to_tool := 1
  , home_position := 0, homed := false, home_triggered := false }

/-- Stepgen configuration for claim C5's counterexample:
`max_acceleration = 4`. -/
def c5cfg : StepgenCfg :=
  { pick_off_pos := 0, pick_off_vel := 0, pick_off_acc := 0
  , max_acceleration := 4, max_speed := 9, steplen := 0
  , dir_hold_time := 0, dir_setup_time := 0, soft_stop := true }

/-- State for claim C5's counterexample: position mode active,
`speed = 3`, `speed_target = 5`, so the gap closes within one tick. -/
def c5s : Stepgen := { Stepgen.init with speed := 3, speed_target := 5, position_mode := true }

/-- Idle input (no external writes) for claim C5. -/
def c5in : StepgenIn :=
  { enable := true, reset := false, st_write := none, pt_write := none, pm_write := none }

/-- Stepgen configuration for claim C6's counterexample:
`max_acceleration = 2`, all pick-offs 0. -/
def c6cfg : StepgenCfg :=
  { pick_off_pos := 0, pick_off_vel := 0, pick_off_acc := 0
  , max_acceleration := 2, max_speed := 9, steplen := 0
  , dir_hold_time := 0, dir_setup_time := 0, soft_stop := true }

/-- Input for claim C6's counterexample: every tick the owner holds the
commanded `speed_target` constant at 5 and keeps position mode on. -/
def c6in : StepgenIn :=
  { enable := true, reset := false, st_write := some 5, pt_write := none, pm_write := some true }

/-- The C6 counterexample run: reset state, then the constant input
`c6in` forever. -/
def c6run : Nat → Stepgen := runSgFrom c6cfg (fun _ => c6in) Stepgen.init

/-- Invariant of the C6 run from tick 3 on: the speed is parked at 4, one
unit short of the constant target 5, because the small-gap branch does not
snap in position mode with a nonzero target. -/
def c6Inv (s : Stepgen) : Prop :=
  s.speed = 4 ∧ s.speed_target = 5 ∧ s.position_mode = true ∧ s.wait = false ∧
  s.step_prev = false ∧ s.dir = false ∧ s.position % 2 = 0

instance (s : Stepgen) : Decidable (c6Inv s) := by unfold c6Inv; infer_instance

/-- State for claim C7's witness: at rest with zero target but a stale
nonzero `acc_distance`. -/
def c7s : Stepgen := { Stepgen.init with acc_distance := 7 }

/-- Stepgen configuration for claim C8's witness: `steplen = 2`,
`dir_hold_time = 2`, `dir_setup_time = 3`. -/
def c8cfg : StepgenCfg :=
  { pick_off_pos := 0, pick_off_vel := 0, pick_off_acc := 0
  , max_acceleration := 1, max_speed := 9, steplen := 2
  , dir_hold_time := 2, dir_setup_time := 3, soft_stop := true }

/-- State for claim C8's witness: stationary (all counters 0, no pending
step edge) with the axis about to reverse: `speed = -1` while
`dir = 0`. -/
def c8s : Stepgen := { Stepgen.init with speed := -1, dir := false }

/-- Input stream for claim C8's witness. -/
def c8ins : Nat → StepgenIn := fun _ =>
  { enable := true, reset := false, st_write := some (-1), pt_write := none, pm_write := none }

/-- Stepgen configuration for claim C10's witness:
`max_acceleration = 0`, the "no limit, snap instantly" configuration. -/
def c10cfg : StepgenCfg :=
  { pick_off_pos := 0, pick_off_vel := 0, pick_off_acc := 0
  , max_acceleration := 0, max_speed := 9, steplen := 0
  , dir_hold_time := 0, dir_setup_time := 0, soft_stop := true }

/-- READY-state input for claim C1's witness: tool 2 commanded. -/
def c1in : TooleratorIn := { enable := true, commanded_tool := 2, home := false }

/-- Input for claim C3's witness. -/
def c3in : TooleratorIn := { enable := true, commanded_tool := 2, home := false }

/-- Input for claim C4's witness: no home request, tool 2 commanded. -/
def c4in : TooleratorIn := { enable := true, commanded_tool := 2, home := false }

/-- Stepgen configuration for claim C7's witness. -/
def c7cfg : StepgenCfg :=
  { pick_off_pos := 0, pick_off_vel := 0, pick_off_acc := 0
  , max_acceleration := 2, max_speed := 9, steplen := 0
  , dir_hold_time := 0, dir_setup_time := 0, soft_stop := true }

/-- Idle input (no external writes) for claim C7's witness. -/
def c7in : StepgenIn :=
  { enable := true, reset := false, st_write := none, pt_write := none, pm_write := none }

/-! Theorems. -/

/-- Claim C1: in state READY, whenever `commanded_tool` differs from
`current_tool` and `homed` is true, the sequencer adds to the generator's
position target `int((ppr << pick_off_pos) / tool_count) * (commanded - current)`
raw units when moving up, or
`int((ppr << pick_off_pos) / tool_count) * (tool_count + commanded - current)`
when wrapping around (forward-only, never a backward shortest path), plus
the over-travel amount `int((ppr << pick_off_pos) * (over_travel / 360))`,
sets `moving_to_tool = commanded_tool`, and transitions to
MOVING_FORWARD (`toolerator.py` lines 155-177). -/
theorem c1_ready_tool_change (cfg : TooleratorCfg) (inp : TooleratorIn) (s : Toolerator)
    (hs : s.state = TState.ready) (hh : s.homed = true)
    (hne : s.current_tool ≠ inp.commanded_tool) :
    (tooleratorTick cfg inp s).gen.position_target
      = s.gen.position_target
        + (if s.current_tool < inp.commanded_tool then
            cfg.steps_per_tool * (inp.commanded_tool - s.current_tool)
          else
            cfg.steps_per_tool * ((cfg.tool_count : Int) + inp.commanded_tool - s.current_tool))
        + cfg.over_travel_raw
    ∧ (tooleratorTick cfg inp s).moving_to_tool = inp.commanded_tool
    ∧ (tooleratorTick cfg inp s).state = TState.movingForward := by
  have hw : (tooleratorTick cfg inp s).gen.position_target
      = ((seqStep cfg inp s).pt).getD s.gen.position_target := rfl
  have hm : (tooleratorTick cfg inp s).moving_to_tool = (seqStep cfg inp s).moving_to_tool := rfl
  have hst : (tooleratorTick cfg inp s).state = (seqStep cfg inp s).state := rfl
  rw [hw, hm, hst]
  unfold seqStep
  rw [hs]
  simp only [hne, hh, ne_eq, not_false_iff, true_and, if_true]
  split_ifs with hlt
  · simp [hlt]
  · simp [hlt]

/-- Claim C1 witness: the spec's wrap-around example, tool 5 → tool 2 on a
6-tool turret with `ppr = 1800` (pick-off 0, over-travel 0): the position
target advances by `1800/6 * (6+2-5) = 900` forward steps. -/
theorem c1_witness :
    ((tooleratorTick c1cfg c1in c1s).gen.position_target
      = c1s.gen.position_target
        + (if c1s.current_tool < c1in.commanded_tool then
            c1cfg.steps_per_tool * (c1in.commanded_tool - c1s.current_tool)
          else
            c1cfg.steps_per_tool * ((c1cfg.tool_count : Int) + c1in.commanded_tool - c1s.current_tool))
        + c1cfg.over_travel_raw
    ∧ (tooleratorTick c1cfg c1in c1s).moving_to_tool = c1in.commanded_tool
    ∧ (tooleratorTick c1cfg c1in c1s).state = TState.movingForward)
    ∧ (tooleratorTick c1cfg c1in c1s).gen.position_target = 900 := by
  refine ⟨c1_ready_tool_change c1cfg c1in c1s rfl rfl (by decide), by decide⟩

/-- Claim C2: with a homing configuration, `homed` is false at every tick
of every run — so the sequencer can never reach READY with
`homed == true`, no matter what the home sensor does.  The source never
assigns `homed` (and the sensor connection built on `toolerator.py`
lines 115/117 is discarded instead of being added to `comb`), so the
claimed outcome of a successful homing sequence is unreachable. -/
theorem c2_homing_never_completes (cfg : TooleratorCfg) (ins : Nat → TooleratorIn)
    (h : cfg.homing = true) :
    ∀ n, (runToolerator cfg ins n).homed = false := by
  intro n
  induction n with
  | zero => simp [runToolerator, Toolerator.init, h]
  | succ n ih =>
    have : (runToolerator cfg ins (n + 1)).homed = (runToolerator cfg ins n).homed := rfl
    rw [this, ih]

/-- Claim C2 witness: a homing-configured turret, home requested from tick
0, still not homed after 5 ticks. -/
theorem c2_witness : c2cfg.homing = true ∧ (runToolerator c2cfg c2ins 5).homed = false :=
  ⟨rfl, c2_homing_never_completes c2cfg c2ins rfl 5⟩

/-- Claim C3: in HOME_SEARCHING with the sensor untriggered, as long as
the generator has moved forward from the search snapshot
(`home_position ≤ position`, which is how the search actually moves), the
sequencer stays in HOME_SEARCHING and never enters ERROR — the source's
guard `home_position - position > ppr + 1` (`toolerator.py` line 191) has
its operands in the wrong order (the difference is ≤ 0 during forward
search) and compares raw pulses against a `2 ^ pick_off_pos`-scaled
position, so the one-revolution timeout of the claim can never fire. -/
theorem c3_search_timeout_unreachable (cfg : TooleratorCfg) (inp : TooleratorIn) (s : Toolerator)
    (hs : s.state = TState.homeSearching) (ht : s.home_triggered = false)
    (hfwd : s.home_position ≤ s.gen.position) :
    (tooleratorTick cfg inp s).state = TState.homeSearching := by
  have : (tooleratorTick cfg inp s).state = (seqStep cfg inp s).state := rfl
  rw [this]
  unfold seqStep
  rw [hs]
  have hlt : ¬ (s.home_position - s.gen.position > (cfg.ppr : Int) + 1) := by omega
  simp [ht, hlt]

/-- Claim C3 witness: more than a full revolution past the search start
(`position - home_position = 1808 > ppr + 1 = 1801` raw units at pick-off
0) with the sensor never triggered, and the sequencer still does not enter
ERROR. -/
theorem c3_witness :
    c3s.gen.position - c3s.home_position > ((c2cfg.ppr : Int) + 1) ∧
    (tooleratorTick c2cfg c3in c3s).state = TState.homeSearching := by
  refine ⟨by decide, c3_search_timeout_unreachable c2cfg c3in c3s rfl rfl (by decide)⟩

/-- Claim C4: in START with `homed` false and no home request, the
sequencer stays in START even when `commanded_tool != current_tool` — the
source condition `self.home == 1 | ((current_tool != commanded_tool) & ~homed)`
(`toolerator.py` line 131) parses as `home == (1 | ...)`, which is just
`home`, so the claimed `(commanded != current) AND not homed` disjunct
never fires. -/
theorem c4_start_needs_home_request (cfg : TooleratorCfg) (inp : TooleratorIn) (s : Toolerator)
    (hs : s.state = TState.start) (hh : s.homed = false) (hr : inp.home = false) :
    (tooleratorTick cfg inp s).state = TState.start := by
  have : (tooleratorTick cfg inp s).state = (seqStep cfg inp s).state := rfl
  rw [this]
  unfold seqStep
  rw [hs]
  simp [hh, hr]

/-- Claim C4 witness: not homed, commanded tool 2 differing from current
tool 1, no home request — the sequencer stays in START instead of starting
the homing sequence. -/
theorem c4_witness :
    c4s.current_tool ≠ c4in.commanded_tool ∧ c4s.homed = false ∧
    (tooleratorTick c2cfg c4in c4s).state = TState.start := by
  refine ⟨by decide, rfl, c4_start_needs_home_request c2cfg c4in c4s rfl rfl rfl⟩

/-- Claim C5 counterexample: with `max_acceleration = 4`, position mode
active, `speed = 3` and `speed_target = 5` the gap closes within one tick,
yet the tick leaves `speed` at 3 instead of snapping it to the target: the
source condition (`stepgen.py` line 273) is
`(position_mode != 1) | (speed_target == 0)` — it snaps exactly when the
claim says it should not. -/
theorem c5_counterexample :
    (c5s.speed_target < c5s.speed + c5cfg.max_acceleration ∧
     c5s.speed_target > c5s.speed - c5cfg.max_acceleration ∧
     c5s.position_mode = true ∧ c5s.speed_target ≠ 0) ∧
    (stepgenTick c5cfg c5in c5s).speed = 3 ∧
    (stepgenTick c5cfg c5in c5s).speed ≠ c5s.speed_target := by
  refine ⟨by decide, by decide, by decide⟩

/-- Claim C5 (amended): in the small-gap branch of the velocity ramp
(`speed_target < speed + max_acceleration` and
`speed_target > speed - max_acceleration`, ramp not skipped by reset or a
direction-setup wait, `max_acceleration > 0`): the `accelerating` flag is
cleared; if position mode is INACTIVE or the target is zero, `speed` snaps
to `speed_target`, and when the speeds differed the remaining ramp
distance `(speed + speed_target) >> (shift + 1)` is added to (speed ≥ 0)
or subtracted from (speed < 0) `acc_distance`; whenever
`speed_target == 0`, `acc_distance` resets to exactly 0; and in position
mode with a nonzero target, `speed` and `acc_distance` are left
unchanged (`stepgen.py` lines 268-290). -/
theorem c5_small_gap (cfg : StepgenCfg) (inp : StepgenIn) (s : Stepgen)
    (hr : inp.reset = false) (hw : s.wait = false) (hma : 0 < cfg.max_acceleration)
    (hgap1 : s.speed_target < s.speed + cfg.max_acceleration)
    (hgap2 : s.speed_target > s.speed - cfg.max_acceleration) :
    (stepgenTick cfg inp s).accelerating = false ∧
    ((s.position_mode = false ∨ s.speed_target = 0) →
      (stepgenTick cfg inp s).speed = s.speed_target) ∧
    (s.speed_target = 0 → (stepgenTick cfg inp s).acc_distance = 0) ∧
    (s.position_mode = false → s.speed_target ≠ 0 → s.speed ≠ s.speed_target →
      (stepgenTick cfg inp s).acc_distance
        = (if s.speed ≥ 0 then
            s.acc_distance + sar (s.speed + s.speed_target) (cfg.shift_av + 1)
          else
            s.acc_distance - sar (s.speed + s.speed_target) (cfg.shift_av + 1))) ∧
    (s.position_mode = true → s.speed_target ≠ 0 →
      (stepgenTick cfg inp s).speed = s.speed ∧
      (stepgenTick cfg inp s).acc_distance = s.acc_distance) := by
  have hacc : (stepgenTick cfg inp s).acc_distance
      = if inp.reset = false ∧ s.wait = false then (velocityRamp cfg s).2.1 else s.acc_distance := rfl
  have hfl : (stepgenTick cfg inp s).accelerating
      = if inp.reset = false ∧ s.wait = false then (velocityRamp cfg s).2.2 else s.accelerating := rfl
  have hspd : (stepgenTick cfg inp s).speed
      = if inp.reset then 0 else if s.wait then s.speed else (velocityRamp cfg s).1 := rfl
  rw [hacc, hfl, hspd, hr, hw]
  simp only [and_self, if_true, if_false, Bool.false_eq_true]
  unfold velocityRamp
  rw [if_neg (by omega), if_neg (by omega), if_neg (by omega)]
  refine ⟨rfl, ?_, ?_, ?_, ?_⟩
  · intro h
    simp [h]
  · intro h
    simp [h]
  · intro hpm hst0 hne
    rw [if_neg hst0, if_pos (And.intro (Or.inl hpm) hne)]
  · intro hpm hst0
    have hnc : ¬ (s.position_mode = false ∨ s.speed_target = 0) := by
      rintro (h | h)
      · rw [hpm] at h
        exact absurd h (by decide)
      · exact hst0 h
    constructor
    · rw [if_neg hnc]
    · rw [if_neg hst0,
        if_neg (show ¬ ((s.position_mode = false ∨ s.speed_target = 0) ∧
          s.speed ≠ s.speed_target) from fun hc => hnc hc.1)]

/-- Claim C5 witness: in position mode with a nonzero target inside the
small-gap branch, the tick clears `accelerating` and leaves both `speed`
and `acc_distance` untouched. -/
theorem c5_witness :
    (stepgenTick c5cfg c5in c5s).accelerating = false ∧
    (stepgenTick c5cfg c5in c5s).speed = c5s.speed ∧
    (stepgenTick c5cfg c5in c5s).acc_distance = c5s.acc_distance := by
  have h := c5_small_gap c5cfg c5in c5s rfl rfl (by decide) (by decide) (by decide)
  exact ⟨h.1, (h.2.2.2.2 rfl (by decide)).1, (h.2.2.2.2 rfl (by decide)).2⟩

/-- Helper for claim C6's counterexample: one tick of the C6 run preserves
the parked-speed invariant. -/
theorem c6aux_inv_step (s : Stepgen) (h : c6Inv s) : c6Inv (stepgenTick c6cfg c6in s) := by
  obtain ⟨h1, h2, h3, h4, h5, h6, h7⟩ := h
  have hb : bitOf s.position 0 = false := by
    unfold bitOf sar
    simp only [pow_zero, Int.ediv_one]
    simp [h7]
  refine ⟨?_, rfl, rfl, ?_, ?_, ?_, ?_⟩
  · have hspd : (stepgenTick c6cfg c6in s).speed
        = if s.wait = true then s.speed else (velocityRamp c6cfg s).1 := rfl
    rw [hspd, h4]
    simp only [Bool.false_eq_true, if_false]
    unfold velocityRamp
    rw [h1, h2, h3]
    norm_num [c6cfg]
  · have : (stepgenTick c6cfg c6in s).wait
        = if bitOf s.position c6cfg.pick_off_pos ≠ s.step_prev then s.hold_dds else s.wait := rfl
    rw [this, h5]
    have : bitOf s.position c6cfg.pick_off_pos = false := hb
    simp [this, h4]
  · have : (stepgenTick c6cfg c6in s).step_prev
        = if (bitOf s.position c6cfg.pick_off_pos ≠ s.step_prev) ∧ s.hold_dds = false then
            bitOf s.position c6cfg.pick_off_pos
          else s.step_prev := rfl
    rw [this, h5]
    have hbb : bitOf s.position c6cfg.pick_off_pos = false := hb
    simp [hbb]
  · have : (stepgenTick c6cfg c6in s).dir
        = if (s.dir ≠ decide (s.speed < 0)) ∧ s.dir_hold_counter = 0 then decide (s.speed < 0)
          else s.dir := rfl
    rw [this, h1, h6]
    norm_num
  · have : (stepgenTick c6cfg c6in s).position
        = if (c6cfg.soft_stop || c6in.enable) && !s.wait then
            s.position + sar s.speed c6cfg.shift_av
          else s.position := rfl
    rw [this, h1, h4]
    have : sar (4:Int) c6cfg.shift_av = 4 := by decide
    simp only [this, Bool.not_false, Bool.and_true]
    norm_num [c6cfg]
    omega

/-- Helper for claim C6's counterexample: from tick 3 on, the C6 run
satisfies the parked-speed invariant. -/
theorem c6aux_inv_holds (m : Nat) : c6Inv (c6run (m + 3)) := by
  induction m with
  | zero => decide
  | succ m ih =>
    have : c6run (m + 1 + 3) = stepgenTick c6cfg c6in (c6run (m + 3)) := rfl
    rw [this]
    exact c6aux_inv_step _ ih

/-- Claim C6 counterexample: `max_acceleration = 2 > 0`, position mode on,
and the owner holds the commanded `speed_target` constant at 5 every tick
(`c6in`), yet the generator's `speed` never reaches 5 in any finite number
of ticks — it parks at 4, one unit short, because the small-gap branch
does not snap in position mode with a nonzero target. -/
theorem c6_counterexample : ¬ ∃ n, (c6run n).speed = 5 := by
  rintro ⟨n, hn⟩
  match n with
  | 0 => exact absurd hn (by decide)
  | 1 => exact absurd hn (by decide)
  | 2 => exact absurd hn (by decide)
  | m + 3 =>
    have h4 : (c6run (m + 3)).speed = 4 := (c6aux_inv_holds m).1
    omega

/-- Claim C6 (amended): (a) on every tick with reset deasserted and
`max_acceleration > 0`, the per-tick change of `speed` never exceeds
`max_acceleration` in either direction; (b) whenever position mode is
inactive or the constant speed target is zero (the cases in which the
small-gap branch snaps), iterating the velocity ramp reaches the target
exactly in finitely many executed ramp ticks; (c) in position mode with a
nonzero constant target, the ramp reaches a speed strictly within
`max_acceleration` of the target in finitely many executed ramp ticks and
then never moves again — in general never reaching the target (see the
counterexample). -/
theorem c6_amended :
    (∀ (cfg : StepgenCfg) (inp : StepgenIn) (s : Stepgen),
      inp.reset = false → 0 < cfg.max_acceleration →
      (stepgenTick cfg inp s).speed - s.speed ≤ cfg.max_acceleration ∧
      s.speed - (stepgenTick cfg inp s).speed ≤ cfg.max_acceleration) ∧
    (∀ (cfg : StepgenCfg) (pm : Bool) (st v : Int), 0 < cfg.max_acceleration →
      (pm = false ∨ st = 0) →
      ∃ n, iterSpeed cfg pm st n v = st) ∧
    (∀ (cfg : StepgenCfg) (st v : Int), 0 < cfg.max_acceleration → st ≠ 0 →
      ∃ n, st - iterSpeed cfg true st n v < cfg.max_acceleration ∧
           iterSpeed cfg true st n v - st < cfg.max_acceleration ∧
           ∀ m, iterSpeed cfg true st (n + m) v = iterSpeed cfg true st n v) := by
  refine ⟨?_, ?_, ?_⟩
  · intro cfg inp s hr hma
    have hspd : (stepgenTick cfg inp s).speed
        = if inp.reset then 0 else if s.wait then s.speed else (velocityRamp cfg s).1 := rfl
    rw [hspd, hr]
    simp only [Bool.false_eq_true, if_false]
    cases hw : s.wait
    · simp only [Bool.false_eq_true, if_false]
      unfold velocityRamp
      split_ifs <;> simp only <;> omega
    · simp only [if_true]
      omega
  · intro cfg pm st v hma hsnap
    suffices h : ∀ (k : Nat) (v : Int), (st - v).natAbs = k →
        ∃ n, iterSpeed cfg pm st n v = st by
      exact h _ v rfl
    intro k
    induction k using Nat.strong_induction_on with
    | _ k ih =>
      intro v hk
      by_cases h1 : st ≥ v + cfg.max_acceleration
      · have hd : (st - (v + cfg.max_acceleration)).natAbs < k := by omega
        obtain ⟨n, hn⟩ := ih _ hd (v + cfg.max_acceleration) rfl
        refine ⟨n + 1, ?_⟩
        have hramp : rampSpeed cfg pm st v = v + cfg.max_acceleration := by
          unfold rampSpeed
          rw [if_neg (by omega), if_pos h1]
        calc iterSpeed cfg pm st (n + 1) v
            = iterSpeed cfg pm st n (rampSpeed cfg pm st v) := rfl
          _ = iterSpeed cfg pm st n (v + cfg.max_acceleration) := by rw [hramp]
          _ = st := hn
      · by_cases h2 : st ≤ v - cfg.max_acceleration
        · have hd : (st - (v - cfg.max_acceleration)).natAbs < k := by omega
          obtain ⟨n, hn⟩ := ih _ hd (v - cfg.max_acceleration) rfl
          refine ⟨n + 1, ?_⟩
          have hramp : rampSpeed cfg pm st v = v - cfg.max_acceleration := by
            unfold rampSpeed
            rw [if_neg (by omega), if_neg h1, if_pos h2]
          calc iterSpeed cfg pm st (n + 1) v
              = iterSpeed cfg pm st n (rampSpeed cfg pm st v) := rfl
            _ = iterSpeed cfg pm st n (v - cfg.max_acceleration) := by rw [hramp]
            _ = st := hn
        · refine ⟨1, ?_⟩
          have hramp : rampSpeed cfg pm st v = st := by
            unfold rampSpeed
            rw [if_neg (by omega), if_neg h1, if_neg h2, if_pos hsnap]
          calc iterSpeed cfg pm st 1 v
              = rampSpeed cfg pm st v := rfl
            _ = st := hramp
  · intro cfg st v hma hst
    suffices h : ∀ (k : Nat) (v : Int), (st - v).natAbs = k →
        ∃ n, st - iterSpeed cfg true st n v < cfg.max_acceleration ∧
             iterSpeed cfg true st n v - st < cfg.max_acceleration ∧
             ∀ m, iterSpeed cfg true st (n + m) v = iterSpeed cfg true st n v by
      exact h _ v rfl
    intro k
    induction k using Nat.strong_induction_on with
    | _ k ih =>
      intro v hk
      by_cases h1 : st ≥ v + cfg.max_acceleration
      · have hd : (st - (v + cfg.max_acceleration)).natAbs < k := by omega
        obtain ⟨n, hb1, hb2, hstab⟩ := ih _ hd (v + cfg.max_acceleration) rfl
        have hramp : rampSpeed cfg true st v = v + cfg.max_acceleration := by
          unfold rampSpeed
          rw [if_neg (by omega), if_pos h1]
        have hstep : ∀ j, iterSpeed cfg true st (j + 1) v
            = iterSpeed cfg true st j (v + cfg.max_acceleration) := by
          intro j
          calc iterSpeed cfg true st (j + 1) v
              = iterSpeed cfg true st j (rampSpeed cfg true st v) := rfl
            _ = iterSpeed cfg true st j (v + cfg.max_acceleration) := by rw [hramp]
        refine ⟨n + 1, ?_, ?_, ?_⟩
        · rw [hstep n]
          exact hb1
        · rw [hstep n]
          exact hb2
        · intro m
          have hidx : n + 1 + m = n + m + 1 := by omega
          rw [hidx, hstep (n + m), hstep n, hstab m]
      · by_cases h2 : st ≤ v - cfg.max_acceleration
        · have hd : (st - (v - cfg.max_acceleration)).natAbs < k := by omega
          obtain ⟨n, hb1, hb2, hstab⟩ := ih _ hd (v - cfg.max_acceleration) rfl
          have hramp : rampSpeed cfg true st v = v - cfg.max_acceleration := by
            unfold rampSpeed
            rw [if_neg (by omega), if_neg h1, if_pos h2]
          have hstep : ∀ j, iterSpeed cfg true st (j + 1) v
              = iterSpeed cfg true st j (v - cfg.max_acceleration) := by
            intro j
            calc iterSpeed cfg true st (j + 1) v
                = iterSpeed cfg true st j (rampSpeed cfg true st v) := rfl
              _ = iterSpeed cfg true st j (v - cfg.max_acceleration) := by rw [hramp]
          refine ⟨n + 1, ?_, ?_, ?_⟩
          · rw [hstep n]
            exact hb1
          · rw [hstep n]
            exact hb2
          · intro m
            have hidx : n + 1 + m = n + m + 1 := by omega
            rw [hidx, hstep (n + m), hstep n, hstab m]
        · have hramp : rampSpeed cfg true st v = v := by
            have hnosnap : ¬ ((true : Bool) = false ∨ st = 0) := by
              rintro (h | h)
              · exact absurd h (by decide)
              · exact hst h
            unfold rampSpeed
            rw [if_neg (by omega), if_neg h1, if_neg h2, if_neg hnosnap]
          have hfix : ∀ m, iterSpeed cfg true st m v = v := by
            intro m
            induction m with
            | zero => rfl
            | succ m ihm =>
              calc iterSpeed cfg true st (m + 1) v
                  = iterSpeed cfg true st m (rampSpeed cfg true st v) := rfl
                _ = iterSpeed cfg true st m v := by rw [hramp]
                _ = v := ihm
          refine ⟨0, ?_, ?_, ?_⟩
          · have h0 : iterSpeed cfg true st 0 v = v := rfl
            rw [h0]
            omega
          · have h0 : iterSpeed cfg true st 0 v = v := rfl
            rw [h0]
            omega
          · intro m
            have h0 : (0 : Nat) + m = m := by omega
            rw [h0, hfix m]
            rfl

/-- Claim C6 witness: at reset the per-tick speed change is within the
acceleration limit; a velocity-mode ramp from 0 reaches the constant
target 5 in finitely many ticks (and so does a position-mode ramp with
target 0); and a position-mode ramp toward the nonzero target 5 parks
strictly within `max_acceleration = 2` of it and stays there. -/
theorem c6_witness :
    ((stepgenTick c6cfg c6in Stepgen.init).speed - Stepgen.init.speed ≤ c6cfg.max_acceleration) ∧
    (∃ n, iterSpeed c6cfg false 5 n 0 = 5) ∧
    (∃ n, iterSpeed c6cfg true 0 n 7 = 0) ∧
    (∃ n, 5 - iterSpeed c6cfg true 5 n 0 < c6cfg.max_acceleration ∧
          iterSpeed c6cfg true 5 n 0 - 5 < c6cfg.max_acceleration ∧
          ∀ m, iterSpeed c6cfg true 5 (n + m) 0 = iterSpeed c6cfg true 5 n 0) :=
  ⟨(c6_amended.1 c6cfg c6in Stepgen.init rfl (by decide)).1,
   c6_amended.2.1 c6cfg false 5 0 (by decide) (Or.inl rfl),
   c6_amended.2.1 c6cfg true 0 7 (by decide) (Or.inr rfl),
   c6_amended.2.2 c6cfg 5 0 (by decide) (by decide)⟩

/-- Claim C7: whenever `speed_target = 0` and `speed` has settled at 0 and
the velocity ramp executes (no reset, no direction-setup wait,
`max_acceleration > 0`), the tick forces `acc_distance` to exactly 0 (the
trailing `If(speed_target == 0, acc_distance.eq(0))` of the small-gap
branch, `stepgen.py` lines 286-289) and keeps `speed` at 0 — so a settled
generator carries no residual drift, whatever `acc_distance` had
accumulated. -/
theorem c7_acc_distance_resets (cfg : StepgenCfg) (inp : StepgenIn) (s : Stepgen)
    (hr : inp.reset = false) (hw : s.wait = false) (hma : 0 < cfg.max_acceleration)
    (hst : s.speed_target = 0) (hv : s.speed = 0) :
    (stepgenTick cfg inp s).acc_distance = 0 ∧ (stepgenTick cfg inp s).speed = 0 := by
  have hacc : (stepgenTick cfg inp s).acc_distance
      = if inp.reset = false ∧ s.wait = false then (velocityRamp cfg s).2.1 else s.acc_distance := rfl
  have hspd : (stepgenTick cfg inp s).speed
      = if inp.reset then 0 else if s.wait then s.speed else (velocityRamp cfg s).1 := rfl
  rw [hacc, hspd, hr, hw]
  simp only [and_self, if_true, if_false, Bool.false_eq_true]
  unfold velocityRamp
  rw [hst, hv]
  rw [if_neg (by omega), if_neg (by omega), if_neg (by omega)]
  simp

/-- Claim C7 witness: a stale `acc_distance = 7` at rest with zero target
is wiped to exactly 0 on the next tick. -/
theorem c7_witness :
    c7s.acc_distance = 7 ∧
    (stepgenTick c7cfg c7in c7s).acc_distance = 0 ∧
    (stepgenTick c7cfg c7in c7s).speed = 0 := by
  have h := c7_acc_distance_resets c7cfg c7in c7s rfl rfl (by decide) rfl rfl
  exact ⟨rfl, h.1, h.2⟩

/-- Helper for claim C8: after a direction-reversal request while
stationary (direction differs from the sign of `speed`, `dir_setup_counter`
and `steplen_counter` at 0, no pending step edge), for the next
`dir_setup_time` ticks `hold_dds` stays set, `dir_setup_counter` counts
down from `dir_setup_time`, `steplen_counter` stays 0 and no step edge is
processed — under arbitrary inputs. -/
theorem c8aux_window (cfg : StepgenCfg) (ins : Nat → StepgenIn) (s : Stepgen)
    (hd : s.dir ≠ decide (s.speed < 0)) (hdsc : s.dir_setup_counter = 0)
    (hslc : s.steplen_counter = 0)
    (hphase : bitOf s.position cfg.pick_off_pos = s.step_prev) :
    ∀ k, 1 ≤ k → k ≤ cfg.dir_setup_time →
      (runSgFrom cfg ins s k).hold_dds = true ∧
      (runSgFrom cfg ins s k).dir_setup_counter = cfg.dir_setup_time + 1 - k ∧
      (runSgFrom cfg ins s k).steplen_counter = 0 ∧
      (runSgFrom cfg ins s k).step_prev = s.step_prev := by
  intro k
  induction k with
  | zero => omega
  | succ k ih =>
    intro _ hk
    rcases Nat.eq_or_lt_of_le (Nat.one_le_iff_ne_zero.mpr (Nat.succ_ne_zero k)) with h1 | h1
    · -- k + 1 = 1: the tick right after the reversal request
      have hk0 : k = 0 := by omega
      subst hk0
      have hrun : runSgFrom cfg ins s 1 = stepgenTick cfg (ins 0) s := rfl
      have hek : (bitOf s.position cfg.pick_off_pos ≠ s.step_prev) = False := by
        simp [hphase]
      refine ⟨?_, ?_, ?_, ?_⟩
      · have : (stepgenTick cfg (ins 0) s).hold_dds
            = if s.dir ≠ decide (s.speed < 0) then true
              else if s.dir_setup_counter = 0 then false else s.hold_dds := rfl
        rw [hrun, this, if_pos hd]
      · have : (stepgenTick cfg (ins 0) s).dir_setup_counter
            = if (s.dir ≠ decide (s.speed < 0)) ∧ s.dir_setup_counter = 0 then cfg.dir_setup_time
              else if (bitOf s.position cfg.pick_off_pos ≠ s.step_prev) ∧ s.hold_dds = false then
                cfg.steplen + cfg.dir_hold_time + cfg.dir_setup_time
              else s.dir_setup_counter - 1 := rfl
        rw [hrun, this, if_pos ⟨hd, hdsc⟩]
        omega
      · have : (stepgenTick cfg (ins 0) s).steplen_counter
            = if (bitOf s.position cfg.pick_off_pos ≠ s.step_prev) ∧ s.hold_dds = false then
                cfg.steplen
              else s.steplen_counter - 1 := rfl
        rw [hrun, this]
        simp [hek, hslc]
      · have : (stepgenTick cfg (ins 0) s).step_prev
            = if (bitOf s.position cfg.pick_off_pos ≠ s.step_prev) ∧ s.hold_dds = false then
                bitOf s.position cfg.pick_off_pos
              else s.step_prev := rfl
        rw [hrun, this]
        simp [hek]
    · -- 2 ≤ k + 1: step the invariant from tick k
      have hk1 : 1 ≤ k := by omega
      have hkd : k ≤ cfg.dir_setup_time := by omega
      obtain ⟨ihh, ihd, ihs, ihp⟩ := ih hk1 hkd
      set t := runSgFrom cfg ins s k with ht
      have hrun : runSgFrom cfg ins s (k + 1) = stepgenTick cfg (ins k) t := rfl
      have hdscne : t.dir_setup_counter ≠ 0 := by omega
      refine ⟨?_, ?_, ?_, ?_⟩
      · have hh : (stepgenTick cfg (ins k) t).hold_dds
            = if t.dir ≠ decide (t.speed < 0) then true
              else if t.dir_setup_counter = 0 then false else t.hold_dds := rfl
        rw [hrun, hh]
        by_cases hc1 : t.dir ≠ decide (t.speed < 0)
        · rw [if_pos hc1]
        · rw [if_neg hc1, if_neg hdscne]
          exact ihh
      · have hh : (stepgenTick cfg (ins k) t).dir_setup_counter
            = if (t.dir ≠ decide (t.speed < 0)) ∧ t.dir_setup_counter = 0 then cfg.dir_setup_time
              else if (bitOf t.position cfg.pick_off_pos ≠ t.step_prev) ∧ t.hold_dds = false then
                cfg.steplen + cfg.dir_hold_time + cfg.dir_setup_time
              else t.dir_setup_counter - 1 := rfl
        rw [hrun, hh]
        rw [if_neg (fun hc => hdscne hc.2),
          if_neg (fun hc => by rw [ihh] at hc; exact absurd hc.2 (by decide))]
        omega
      · have hh : (stepgenTick cfg (ins k) t).steplen_counter
            = if (bitOf t.position cfg.pick_off_pos ≠ t.step_prev) ∧ t.hold_dds = false then
                cfg.steplen
              else t.steplen_counter - 1 := rfl
        rw [hrun, hh]
        rw [if_neg (fun hc => by rw [ihh] at hc; exact absurd hc.2 (by decide))]
        omega
      · have hh : (stepgenTick cfg (ins k) t).step_prev
            = if (bitOf t.position cfg.pick_off_pos ≠ t.step_prev) ∧ t.hold_dds = false then
                bitOf t.position cfg.pick_off_pos
              else t.step_prev := rfl
        rw [hrun, hh]
        rw [if_neg (fun hc => by rw [ihh] at hc; exact absurd hc.2 (by decide))]
        exact ihp

/-- Claim C8: (a) the direction output changes value only on a tick where
`dir_hold_counter` has reached 0 (`stepgen.py` lines 104-107); (b) after a
direction-reversal request issued while the axis is stationary (no pending
step edge, counters at 0), no step edge is processed and the step output
stays low for the next `dir_setup_time` ticks, under arbitrary inputs —
the next step edge is emitted no earlier than `dir_setup_time` ticks after
the request (`stepgen.py` lines 59-108). -/
theorem c8_direction_timing :
    (∀ (cfg : StepgenCfg) (inp : StepgenIn) (s : Stepgen),
      (stepgenTick cfg inp s).dir ≠ s.dir → s.dir_hold_counter = 0) ∧
    (∀ (cfg : StepgenCfg) (ins : Nat → StepgenIn) (s : Stepgen),
      s.dir ≠ decide (s.speed < 0) → s.dir_setup_counter = 0 →
      s.steplen_counter = 0 →
      bitOf s.position cfg.pick_off_pos = s.step_prev →
      ∀ k, 1 ≤ k → k ≤ cfg.dir_setup_time →
        (runSgFrom cfg ins s (k + 1)).step_prev = (runSgFrom cfg ins s k).step_prev ∧
        (runSgFrom cfg ins s (k + 1)).step = false) := by
  constructor
  · intro cfg inp s h
    have hh : (stepgenTick cfg inp s).dir
        = if (s.dir ≠ decide (s.speed < 0)) ∧ s.dir_hold_counter = 0 then decide (s.speed < 0)
          else s.dir := rfl
    rw [hh] at h
    by_cases hc : (s.dir ≠ decide (s.speed < 0)) ∧ s.dir_hold_counter = 0
    · exact hc.2
    · rw [if_neg hc] at h
      exact absurd rfl h
  · intro cfg ins s hd hdsc hslc hphase k hk1 hk2
    obtain ⟨ihh, ihd, ihs, ihp⟩ := c8aux_window cfg ins s hd hdsc hslc hphase k hk1 hk2
    set t := runSgFrom cfg ins s k with ht
    have hrun : runSgFrom cfg ins s (k + 1) = stepgenTick cfg (ins k) t := rfl
    constructor
    · have hh : (stepgenTick cfg (ins k) t).step_prev
          = if (bitOf t.position cfg.pick_off_pos ≠ t.step_prev) ∧ t.hold_dds = false then
              bitOf t.position cfg.pick_off_pos
            else t.step_prev := rfl
      rw [hrun, hh]
      rw [if_neg (fun hc => by rw [ihh] at hc; exact absurd hc.2 (by decide))]
    · have hh : (stepgenTick cfg (ins k) t).step = decide (0 < t.steplen_counter) := rfl
      rw [hrun, hh, ihs]
      decide

/-- Claim C8 witness: a reversal requested while stationary
(`speed = -1`, `dir` still forward, counters 0) with
`dir_setup_time = 3`: at tick 2 inside the window no step edge is
processed and the step output is low. -/
theorem c8_witness :
    (runSgFrom c8cfg c8ins c8s 3).step_prev = (runSgFrom c8cfg c8ins c8s 2).step_prev ∧
    (runSgFrom c8cfg c8ins c8s 3).step = false :=
  c8_direction_timing.2 c8cfg c8ins c8s (by decide) rfl rfl (by decide) 2 (by decide) (by decide)

/-- Claim C9: constructing the step generator with a pick-off list of
fewer than 3 values, or a pick-off that is neither an integer nor a
(non-string) sequence, raises at construction time so the core is never
built, while a single integer or a list of at least 3 values constructs
without raising (`stepgen.py` lines 174-186). -/
theorem c9_pick_off_validation :
    (∀ n, parsePickOff (PickOff.int n) = some (n, n, n)) ∧
    (∀ l, l.length < 3 → parsePickOff (PickOff.list l) = none) ∧
    parsePickOff PickOff.other = none ∧
    (∀ l, 3 ≤ l.length → (parsePickOff (PickOff.list l)).isSome = true) := by
  refine ⟨fun n => rfl, fun l hl => ?_, rfl, fun l hl => ?_⟩
  · simp [parsePickOff, hl]
  · simp [parsePickOff, Nat.not_lt.mpr hl]

/-- Claim C9 witness: a 2-element pick-off list is rejected at
construction, the production 3-element pick-off `(32, 40, 48)` is
accepted. -/
theorem c9_witness :
    parsePickOff (PickOff.list [32, 40]) = none ∧
    (parsePickOff (PickOff.list [32, 40, 48])).isSome = true :=
  ⟨c9_pick_off_validation.2.1 [32, 40] (by decide),
   c9_pick_off_validation.2.2.2 [32, 40, 48] (by decide)⟩

/-- Claim C10: when `max_acceleration = 0` (the "no limit, snap instantly"
configuration), both thresholds of the `stopped` window collapse to 0, its
condition degenerates to `dtg < 0 AND dtg > 0`, and the flag is false in
every state — even at the target with zero speed
(`stepgen.py` lines 294-298). -/
theorem c10_stopped_never (cfg : StepgenCfg) (s : Stepgen)
    (h : cfg.max_acceleration = 0) : stopped cfg s = false := by
  unfold stopped
  rw [h]
  have h5 : sar (5 * (0:Int)) cfg.shift_av = 0 := by simp [sar]
  have h5n : sar (-5 * (0:Int)) cfg.shift_av = 0 := by simp [sar]
  rw [h5, h5n]
  rcases lt_trichotomy (dtg s) 0 with hlt | heq | hgt
  · simp [hlt, not_lt.mpr (le_of_lt hlt)]
  · simp [heq]
  · simp [not_lt.mpr (le_of_lt hgt)]

/-- Claim C10 witness: at reset the position equals the position target
and the speed is 0, yet with `max_acceleration = 0` the generator does not
report `stopped`. -/
theorem c10_witness :
    Stepgen.init.position = Stepgen.init.position_target ∧ Stepgen.init.speed = 0 ∧
    stopped c10cfg Stepgen.init = false :=
  ⟨rfl, rfl, c10_stopped_never c10cfg Stepgen.init rfl⟩
